import Mathlib

/-
Verification development for the vibecraft session-supervision core
(server/SessionManager.ts): a shallow embedding of the output ring buffer,
the permission-prompt detector, and the session registry operations, with
theorems settling the frozen specification claims.
-/

deriving instance DecidableEq for Except

namespace Vibecraft

/-- ASCII lower-casing, as performed by a case-insensitive regex flag on
ASCII patterns. Non-ASCII characters are unchanged. -/
def lowerChar (c : Char) : Char :=
  if 'A' ≤ c ∧ c ≤ 'Z' then Char.ofNat (c.toNat + 32) else c

/-- The JavaScript regex character class backslash-s (whitespace). -/
def isJsWS (c : Char) : Bool :=
  let n := c.toNat
  n == 0x20 || n == 0x09 || n == 0x0A || n == 0x0B || n == 0x0C || n == 0x0D ||
  n == 0xA0 || n == 0x1680 || (Nat.ble 0x2000 n && Nat.ble n 0x200A) ||
  n == 0x2028 || n == 0x2029 || n == 0x202F || n == 0x205F || n == 0x3000 ||
  n == 0xFEFF

/-- The JavaScript regex character class backslash-d (ASCII digits). -/
def isDigitChar (c : Char) : Bool :=
  let n := c.toNat
  Nat.ble 0x30 n && Nat.ble n 0x39

/-- The JavaScript regex character class backslash-w (word characters). -/
def isWordChar (c : Char) : Bool :=
  let n := c.toNat
  (Nat.ble 97 n && Nat.ble n 122) || (Nat.ble 65 n && Nat.ble n 90) ||
  isDigitChar c || n == 95

/-- Line terminators, which the JavaScript regex dot does not match. -/
def isLineTerm (c : Char) : Bool :=
  let n := c.toNat
  n == 10 || n == 13 || n == 0x2028 || n == 0x2029

/-- Whether the second list is a leading segment of the first. -/
def listStartsWith : List Char → List Char → Bool
  | _, [] => true
  | [], _ :: _ => false
  | c :: cs, p :: ps => c == p && listStartsWith cs ps

/-- Whether the second list occurs contiguously inside the first. -/
def listContainsSub : List Char → List Char → Bool
  | [], pat => listStartsWith [] pat
  | c :: rest, pat => listStartsWith (c :: rest) pat || listContainsSub rest pat

/-- Substring test, as the JavaScript String.includes method. -/
def strContains (s pat : String) : Bool :=
  listContainsSub s.data pat.data

/-- Case-insensitive substring test, modelling an /i regex whose pattern is a
plain phrase. -/
def containsCI (s pat : String) : Bool :=
  listContainsSub (s.data.map lowerChar) (pat.data.map lowerChar)

/-- Splitting on the regex of an optional carriage return followed by a line
feed, as used by both appendOutput and parsePermissionPrompt. A lone carriage
return is not a separator. -/
def splitLinesGo : List Char → List Char → List (List Char)
  | [], acc => [acc.reverse]
  | '\r' :: '\n' :: rest, acc => acc.reverse :: splitLinesGo rest []
  | '\n' :: rest, acc => acc.reverse :: splitLinesGo rest []
  | c :: rest, acc => splitLinesGo rest (c :: acc)

/-- String-level split on carriage-return-optional line feeds. -/
def splitLines (s : String) : List String :=
  (splitLinesGo s.data []).map String.mk

/-- The platform line terminator constant (os.EOL); modelled as a line feed.
The claims under verification do not depend on the platform choice. -/
def EOL : String := "\n"

/-- Ring-buffer capacity (MAX_OUTPUT_LINES in the source). -/
def MAX_OUTPUT_LINES : Nat := 200

/-- Re-attach the line terminator to every split line except the last,
exactly as the loop in appendOutput does. -/
def frameLines (lines : List String) : List String :=
  lines.enum.map (fun p => if p.1 < lines.length - 1 then p.2 ++ EOL else p.2)

/-- The appendOutput operation of the source, at the level of one output
buffer: split the chunk, re-frame, push all lines, then truncate to the most
recent MAX_OUTPUT_LINES entries. -/
def appendLinesBuffer (buf : List String) (text : String) : List String :=
  let buf2 := buf ++ frameLines (splitLines text)
  if buf2.length > MAX_OUTPUT_LINES then buf2.drop (buf2.length - MAX_OUTPUT_LINES)
  else buf2

/-- The JavaScript Array.slice with a negative start: the last n entries
(and the whole list when n is zero, since slice of negative zero is slice
of zero). -/
def lastN (l : List String) (n : Nat) : List String :=
  if n = 0 then l else l.drop (l.length - n)

/-- One numbered option of a parsed permission prompt. -/
structure PromptOption where
  number : String
  label : String
deriving DecidableEq, Repr

/-- A parsed permission prompt (the PermissionPrompt interface). -/
structure PermissionPrompt where
  tool : String
  context : String
  options : List PromptOption
deriving DecidableEq, Repr

/-- The JavaScript String.trim, over the whitespace class. -/
def jsTrim (s : String) : String :=
  String.mk (((s.data.dropWhile isJsWS).reverse.dropWhile isJsWS).reverse)

/-- The anchored option regex of the source: optional whitespace, an optional
cursor marker, optional whitespace, digits, a period, mandatory whitespace,
then a captured label running to the end of the line (the dot class cannot
cross a line terminator, and the label is trimmed). -/
def matchOption (line : String) : Option PromptOption :=
  let r0 := line.data.dropWhile isJsWS
  let r1 := match r0 with
    | '❯' :: rest => rest.dropWhile isJsWS
    | '>' :: rest => rest.dropWhile isJsWS
    | _ => r0
  let digits := r1.takeWhile isDigitChar
  let r2 := r1.dropWhile isDigitChar
  if digits.isEmpty then none
  else
    match r2 with
    | '.' :: r3 =>
      let ws := r3.takeWhile isJsWS
      let tail := r3.dropWhile isJsWS
      if ws.isEmpty then none
      else if tail.isEmpty then
        if Nat.ble 2 r3.length && !(isLineTerm ((r3.getLast?).getD 'x')) then
          some { number := String.mk digits
                 label := jsTrim (String.mk [(r3.getLast?).getD 'x']) }
        else none
      else
        if tail.any isLineTerm then none
        else some { number := String.mk digits, label := jsTrim (String.mk tail) }
    | _ => none

/-- The proceed-question test of step 1 of the detector. -/
def proceedTest (line : String) : Bool :=
  containsCI line "Do you want to proceed?" ||
  containsCI line "Would you like to proceed?"

/-- The closing-footer test of step 2 of the detector. -/
def footerTest (line : String) : Bool :=
  containsCI line "Esc to cancel" || containsCI line "ctrl-g to edit"

/-- The early-stop test of the option-collection loop. -/
def escTest (line : String) : Bool :=
  containsCI line "Esc to cancel"

/-- The selection-cursor test: optional whitespace then the cursor marker at
the start of the line. -/
def selectorTest (line : String) : Bool :=
  match line.data.dropWhile isJsWS with
  | '❯' :: _ => true
  | _ => false

/-- Step 1: scan the most recent 30 lines, newest first, for the proceed
question; out-of-range indices read as the empty line. -/
def findProceedIdx (lines : List String) : Option Nat :=
  (List.range 30).findSome? (fun k =>
    let i := lines.length - 1 - k
    if proceedTest (lines.getD i "") then some i else none)

/-- Loop body of step 2: break with success on a footer line, otherwise
record whether a selection cursor was seen. -/
def footerSelGo (lines : List String) : List Nat → Bool → Bool
  | [], sel => sel
  | i :: rest, sel =>
    if i < lines.length then
      if footerTest (lines.getD i "") then true
      else footerSelGo lines rest (sel || selectorTest (lines.getD i ""))
    else sel

/-- Step 2: within the 14 lines after the question, look for a footer phrase
or a selection cursor. -/
def footerOrSelector (lines : List String) (idx : Nat) : Bool :=
  footerSelGo lines (List.range' (idx + 1) 14) false

/-- Loop body of step 3: stop on the footer phrase, otherwise collect every
line matching the option pattern. -/
def collectGo (lines : List String) : List Nat → List PromptOption
  | [] => []
  | i :: rest =>
    if i < lines.length then
      if escTest (lines.getD i "") then []
      else
        match matchOption (lines.getD i "") with
        | some o => o :: collectGo lines rest
        | none => collectGo lines rest
    else []

/-- Step 3: collect numbered options from the 9 lines after the question. -/
def collectOptions (lines : List String) (idx : Nat) : List PromptOption :=
  collectGo lines (List.range' (idx + 1) 9)

/-- The unanchored bullet-marker tool regex: a bullet character, optional
whitespace, a captured word, optional whitespace, then an opening bracket;
the scan retries at every later start position. -/
def bulletMatchFrom : List Char → Option String
  | [] => none
  | c :: rest =>
    if c == '●' || c == '◐' || c == '·' then
      let r1 := rest.dropWhile isJsWS
      let w := r1.takeWhile isWordChar
      if w.isEmpty then bulletMatchFrom rest
      else
        match (r1.dropWhile isWordChar).dropWhile isJsWS with
        | '(' :: _ => some (String.mk w)
        | _ => bulletMatchFrom rest
    else bulletMatchFrom rest

/-- The fixed keyword alternation of the anchored tool-invocation regex. -/
def toolKeywords : List String :=
  ["Bash", "Read", "Write", "Edit", "Grep", "Glob", "Task", "WebFetch", "WebSearch"]

/-- The anchored tool-invocation regex: optional whitespace, one of the
known keywords case-insensitively, mandatory whitespace, then a word
character; the capture keeps the original casing of the line. -/
def cmdKeywordMatch (line : String) : Option String :=
  let r := line.data.dropWhile isJsWS
  toolKeywords.findSome? (fun kw =>
    let k := kw.data.length
    if (r.take k).map lowerChar == kw.data.map lowerChar then
      if ((r.drop k).takeWhile isJsWS).isEmpty then none
      else if (((r.drop k).dropWhile isJsWS).takeWhile isWordChar).isEmpty then none
      else some (String.mk (r.take k))
    else none)

/-- Step 4: scan backward up to 21 lines from the question for a bullet
match or a keyword match; default to the Unknown sentinel. -/
def findTool (lines : List String) (idx : Nat) : String :=
  ((List.range 21).findSome? (fun k =>
    let line := lines.getD (idx - k) ""
    match bulletMatchFrom line.data with
    | some t => some t
    | none => cmdKeywordMatch line)).getD "Unknown"

/-- Step 5: the context is the slice from 10 lines before the question to
the end of the collected options, joined with line feeds and trimmed. -/
def buildContext (lines : List String) (idx : Nat) (numOpts : Nat) : String :=
  jsTrim (String.intercalate "\n"
    ((lines.drop (idx - 10)).take (idx + 1 + numOpts - (idx - 10))))

/-- The permission-prompt detector (parsePermissionPrompt in the source),
as a pure function of the joined recent output. -/
def parsePermissionPrompt (output : String) : Option PermissionPrompt :=
  match findProceedIdx (splitLines output) with
  | none => none
  | some idx =>
    if footerOrSelector (splitLines output) idx then
      if (collectOptions (splitLines output) idx).length < 2 then none
      else
        some { tool := findTool (splitLines output) idx
               context := buildContext (splitLines output) idx
                 (collectOptions (splitLines output) idx).length
               options := collectOptions (splitLines output) idx }
    else none

/-- Session status enum. -/
inductive SessionStatus where
  | idle
  | working
  | offline
deriving DecidableEq, Repr

/-- The observable state of a spawned child process handle: whether a kill
signal was successfully sent through the handle, the exit code (null while
running or when terminated by a signal), the terminating signal name, and
the input stream (its presence, whether it is still open, and the bytes
written to it). -/
structure ChildProcess where
  killed : Bool
  exitCode : Option Int
  signalCode : Option String
  stdinPresent : Bool
  stdinOpen : Bool
  stdinWrites : List String
deriving DecidableEq, Repr

/-- The SessionState record of the source. -/
structure SessionState where
  id : String
  pid : Nat
  status : SessionStatus
  outputBuffer : List String
  process : ChildProcess
  createdAt : Nat
  lastActivity : Nat
deriving DecidableEq, Repr

/-- The error taxonomy of the specification; the source raises each of these
as a plain Error with a distinguishing message. -/
inductive SMError where
  | duplicateSession (id : String)
  | spawnFailure
  | notFound (id : String)
  | offline (id : String)
  | unknownControl (ch : String)
deriving DecidableEq, Repr

/-- The session registry: an insertion-ordered map from session id to
session state, modelling the private Map of the SessionManager class. -/
structure SessionManager where
  sessions : List (String × SessionState)
deriving DecidableEq, Repr

/-- Map lookup on the underlying entry list. -/
def lookupEntries : List (String × SessionState) → String → Option SessionState
  | [], _ => none
  | (k, st) :: rest, sid => if k = sid then some st else lookupEntries rest sid

/-- Map set on the underlying entry list: replace in place, else append. -/
def setEntries : List (String × SessionState) → String → SessionState →
    List (String × SessionState)
  | [], sid, st => [(sid, st)]
  | (k, st0) :: rest, sid, st =>
    if k = sid then (sid, st) :: rest else (k, st0) :: setEntries rest sid st

def SessionManager.lookup (m : SessionManager) (sid : String) : Option SessionState :=
  lookupEntries m.sessions sid

def SessionManager.set (m : SessionManager) (sid : String) (st : SessionState) :
    SessionManager :=
  ⟨setEntries m.sessions sid st⟩

def SessionManager.del (m : SessionManager) (sid : String) : SessionManager :=
  ⟨m.sessions.filter (fun e => !(e.1 == sid))⟩

/-- The status of a session id, or none when the id is not registered. -/
def statusOf (m : SessionManager) (sid : String) : Option SessionStatus :=
  (m.lookup sid).map (fun st => st.status)

/-- The create operation. The spawn boundary is an input: the pid reported
by the spawned handle (with zero or absent treated as a failed spawn, as the
falsy check in the source does) and the fresh process handle. The third
component counts how many times the spawn facility was invoked. -/
def create (m : SessionManager) (sid : String) (spawnPid : Option Nat)
    (spawnProc : ChildProcess) (now : Nat) :
    SessionManager × Except SMError SessionState × Nat :=
  if (m.lookup sid).isSome then (m, .error (.duplicateSession sid), 0)
  else
    let pid := spawnPid.getD 0
    if pid = 0 then (m, .error .spawnFailure, 1)
    else
      let st : SessionState :=
        { id := sid, pid := pid, status := .idle, outputBuffer := []
          process := spawnProc, createdAt := now, lastActivity := now }
      (m.set sid st, .ok st, 1)

/-- The sendText operation: not-found and offline checks, then a write of
the text followed by a newline, updating the activity timestamp. -/
def sendText (m : SessionManager) (sid text : String) (now : Nat) :
    SessionManager × Except SMError Unit :=
  match m.lookup sid with
  | none => (m, .error (.notFound sid))
  | some st =>
    if st.status = .offline ∨ ¬ st.process.stdinPresent then (m, .error (.offline sid))
    else
      let p := { st.process with stdinWrites := st.process.stdinWrites ++ [text ++ "\n"] }
      (m.set sid { st with process := p, lastActivity := now }, .ok ())

/-- The control-character table of sendControl. -/
def controlByte (ch : String) : Option String :=
  if ch = "C-c" then some "\x03"
  else if ch = "C-d" then some "\x04"
  else if ch = "C-z" then some "\x1a"
  else none

/-- The sendControl operation: not-found and offline checks, then the table
lookup, then a single-byte write. -/
def sendControl (m : SessionManager) (sid ch : String) (now : Nat) :
    SessionManager × Except SMError Unit :=
  match m.lookup sid with
  | none => (m, .error (.notFound sid))
  | some st =>
    if st.status = .offline ∨ ¬ st.process.stdinPresent then (m, .error (.offline sid))
    else
      match controlByte ch with
      | none => (m, .error (.unknownControl ch))
      | some b =>
        let p := { st.process with stdinWrites := st.process.stdinWrites ++ [b] }
        (m.set sid { st with process := p, lastActivity := now }, .ok ())

/-- The getOutput operation: the last n buffered lines joined. -/
def getOutput (m : SessionManager) (sid : String) (n : Nat) : Except SMError String :=
  match m.lookup sid with
  | none => .error (.notFound sid)
  | some st => .ok (String.join (lastN st.outputBuffer n))

/-- The getAllOutput operation: the whole buffer joined. -/
def getAllOutput (m : SessionManager) (sid : String) : Except SMError String :=
  match m.lookup sid with
  | none => .error (.notFound sid)
  | some st => .ok (String.join st.outputBuffer)

/-- The detectPermissionPrompt operation: reads the last 50 lines through
getOutput (propagating its not-found failure) and runs the parser. -/
def detectPermissionPrompt (m : SessionManager) (sid : String) :
    Except SMError (Option PermissionPrompt) :=
  (getOutput m sid 50).map parsePermissionPrompt

/-- The detectBypassWarning operation: a conjunction of two case-sensitive
substring tests over the last 50 lines, read through getOutput. -/
def detectBypassWarning (m : SessionManager) (sid : String) : Except SMError Bool :=
  (getOutput m sid 50).map
    (fun out => strContains out "WARNING" && strContains out "Bypass Permissions mode")

/-- The isAlive operation: false for unknown ids; otherwise re-checks the
killed flag and the exit code of the handle, marking the session offline
when either indicates death. -/
def isAlive (m : SessionManager) (sid : String) : SessionManager × Bool :=
  match m.lookup sid with
  | none => (m, false)
  | some st =>
    if st.process.killed ∨ st.process.exitCode ≠ none then
      (m.set sid { st with status := .offline }, false)
    else (m, true)

/-- The updateStatus operation: caller-driven, a no-op for unknown ids. -/
def updateStatus (m : SessionManager) (sid : String) (s : SessionStatus) (now : Nat) :
    SessionManager :=
  match m.lookup sid with
  | none => m
  | some st => m.set sid { st with status := s, lastActivity := now }

/-- The exit-event handler installed by create: records the exit code and
signal reported by the runtime and sets the status offline. Exactly one of
the two report fields is present for a real exit. -/
def processExit (m : SessionManager) (sid : String) (code : Option Int)
    (signal : Option String) : SessionManager :=
  match m.lookup sid with
  | none => m
  | some st =>
    m.set sid { st with status := .offline
                        process := { st.process with exitCode := code, signalCode := signal } }

/-- The error-event handler installed by create: sets the status offline. -/
def processError (m : SessionManager) (sid : String) : SessionManager :=
  match m.lookup sid with
  | none => m
  | some st => m.set sid { st with status := .offline }

/-- The stream-data handler installed by create: appends the chunk to the
output ring buffer and refreshes the activity timestamp. -/
def receiveData (m : SessionManager) (sid chunk : String) (now : Nat) : SessionManager :=
  match m.lookup sid with
  | none => m
  | some st =>
    m.set sid { st with outputBuffer := appendLinesBuffer st.outputBuffer chunk
                        lastActivity := now }

/-- The kill operation: silent success on an unknown id; otherwise the
three-stage escalation (close stdin, then send a termination signal unless
the handle already has its killed flag set, then an unconditional kill if
the flag is still unset), after which the status is set offline and the
session removed from the registry. The second component is the final state
of the removed session. -/
def kill (m : SessionManager) (sid : String) : SessionManager × Option SessionState :=
  match m.lookup sid with
  | none => (m, none)
  | some st =>
    let p0 := st.process
    let p1 := if p0.stdinPresent then { p0 with stdinOpen := false } else p0
    let p2 := if ¬ p1.killed then { p1 with killed := true } else p1
    let p3 := if ¬ p2.killed then { p2 with killed := true } else p2
    (m.del sid, some { st with process := p3, status := .offline })

/-- The list operation: all session states in insertion order. -/
def listSessions (m : SessionManager) : List SessionState :=
  m.sessions.map Prod.snd

/-- The get operation: an absent result rather than a failure. -/
def getSession (m : SessionManager) (sid : String) : Option SessionState :=
  m.lookup sid

/-- The shutdown operation: invokes kill for every registered id (the ids
are snapshotted up front, as Array.from does) and returns the list of ids
it terminated. -/
def shutdown (m : SessionManager) : SessionManager × List String :=
  let ids := m.sessions.map Prod.fst
  (ids.foldl (fun acc sid => (kill acc sid).1) m, ids)

/-- One core operation or runtime event, excluding session re-creation and
the caller-driven updateStatus. -/
inductive CoreOp where
  | sendTextOp (sid text : String) (now : Nat)
  | sendControlOp (sid ch : String) (now : Nat)
  | getOutputOp (sid : String) (n : Nat)
  | getAllOutputOp (sid : String)
  | detectPromptOp (sid : String)
  | detectBypassOp (sid : String)
  | killOp (sid : String)
  | listOp
  | getOp (sid : String)
  | isAliveOp (sid : String)
  | exitEvent (sid : String) (code : Option Int) (signal : Option String)
  | errorEvent (sid : String)
  | dataEvent (sid chunk : String) (now : Nat)
  | shutdownOp
deriving DecidableEq, Repr

/-- The registry state reached by one core operation (read-only operations
leave it unchanged). -/
def applyOp (m : SessionManager) : CoreOp → SessionManager
  | .sendTextOp sid t now => (sendText m sid t now).1
  | .sendControlOp sid c now => (sendControl m sid c now).1
  | .getOutputOp _ _ => m
  | .getAllOutputOp _ => m
  | .detectPromptOp _ => m
  | .detectBypassOp _ => m
  | .killOp sid => (kill m sid).1
  | .listOp => m
  | .getOp _ => m
  | .isAliveOp sid => (isAlive m sid).1
  | .exitEvent sid c s => processExit m sid c s
  | .errorEvent sid => processError m sid
  | .dataEvent sid ch now => receiveData m sid ch now
  | .shutdownOp => (shutdown m).1

/-- The registry state reached by a sequence of core operations. -/
def applyOps (m : SessionManager) (ops : List CoreOp) : SessionManager :=
  ops.foldl applyOp m

/-- A live child-process handle as produced by a successful spawn. -/
def procLive : ChildProcess :=
  { killed := false, exitCode := none, signalCode := none
    stdinPresent := true, stdinOpen := true, stdinWrites := [] }

/-- A freshly created session used by the concrete witnesses. -/
def sessionA : SessionState :=
  { id := "s", pid := 42, status := .idle, outputBuffer := []
    process := procLive, createdAt := 0, lastActivity := 0 }

/-- A registry holding the single live session. -/
def mA : SessionManager := ⟨[("s", sessionA)]⟩

/-- An empty registry. -/
def mEmpty : SessionManager := ⟨[]⟩

/-- The registry after the session process of mA is terminated by an
externally delivered signal: the runtime reports a null exit code and the
signal name, and the kill flag of the handle was never set. -/
def mSignalExit : SessionManager := processExit mA "s" none (some "SIGKILL")

/-- A session already offline with a dead process. -/
def sessionOffline : SessionState :=
  { sessionA with
    status := .offline
    process := { procLive with exitCode := some 0 } }

/-- The registry holding a session already offline with a dead process. -/
def mOffline : SessionManager := ⟨[("s", sessionOffline)]⟩

/-- The prompt-detection scenario transcript of the specification. -/
def scenarioOut : String :=
  "Bash(ls -la)\n\nDo you want to proceed?\n❯ 1. Yes\n  2. No\nEsc to cancel"

/-- The scenario transcript with the footer line and the cursor-marker line
both removed. -/
def scenarioNoFooterNoCursor : String :=
  "Bash(ls -la)\n\nDo you want to proceed?\n  2. No"

/-- A proceed question followed by a single numbered option. -/
def scenarioSingleOption : String :=
  "Do you want to proceed?\n❯ 1. Yes\nEsc to cancel"

/-- The session whose output buffer contains exactly the scenario lines
(with the newline framing appendOutput gives them). -/
def scenarioSession : SessionState :=
  { sessionA with outputBuffer := appendLinesBuffer [] scenarioOut }

/-- The registry holding the scenario session. -/
def mScenario : SessionManager := ⟨[("s", scenarioSession)]⟩

/-- The prompt the detector actually produces on the scenario transcript. -/
def pScenario : PermissionPrompt :=
  { tool := "Unknown"
    context := "Bash(ls -la)\n\nDo you want to proceed?\n❯ 1. Yes\n  2. No"
    options := [{ number := "1", label := "Yes" }, { number := "2", label := "No" }] }

/-- One step leaves the status of a session id unchanged, or forces it
offline, or removes the session. -/
def statusPreserved (m m' : SessionManager) (x : String) : Prop :=
  statusOf m' x = statusOf m x ∨ statusOf m' x = some .offline ∨ statusOf m' x = none

/-! Helper lemmas about the registry map and the ring buffer. -/

theorem lookupEntries_filter_self (es : List (String × SessionState)) (sid : String) :
    lookupEntries (es.filter (fun e => !(e.1 == sid))) sid = none := by
  induction es with
  | nil => rfl
  | cons e rest ih =>
    obtain ⟨k, st⟩ := e
    by_cases h : k = sid
    · simpa [List.filter_cons, h] using ih
    · simpa [List.filter_cons, h, lookupEntries] using ih

theorem lookupEntries_filter_other (es : List (String × SessionState)) (sid x : String)
    (hx : x ≠ sid) :
    lookupEntries (es.filter (fun e => !(e.1 == sid))) x = lookupEntries es x := by
  induction es with
  | nil => rfl
  | cons e rest ih =>
    obtain ⟨k, st⟩ := e
    by_cases h : k = sid
    · subst h
      have hk : ¬ k = x := fun hh => hx hh.symm
      simp [List.filter_cons, lookupEntries, hk, ih]
    · by_cases h2 : k = x <;> simp [List.filter_cons, lookupEntries, h, h2, hx, ih]

theorem lookupEntries_none_filter (es : List (String × SessionState)) (sid : String)
    (h : lookupEntries es sid = none) :
    es.filter (fun e => !(e.1 == sid)) = es := by
  induction es with
  | nil => rfl
  | cons e rest ih =>
    obtain ⟨k, st⟩ := e
    by_cases hk : k = sid
    · simp [lookupEntries, hk] at h
    · simp only [lookupEntries, if_neg hk] at h
      simp [List.filter_cons, hk, ih h]

theorem lookupEntries_set (es : List (String × SessionState)) (k : String)
    (st : SessionState) (x : String) :
    lookupEntries (setEntries es k st) x =
      if k = x then some st else lookupEntries es x := by
  induction es with
  | nil => simp [setEntries, lookupEntries]
  | cons e rest ih =>
    obtain ⟨k0, st0⟩ := e
    by_cases h : k0 = k
    · subst h
      by_cases h2 : k0 = x <;> simp [setEntries, lookupEntries, h2]
    · by_cases h2 : k0 = x <;> by_cases h3 : k = x <;>
        simp_all [setEntries, lookupEntries]

theorem statusOf_set (m : SessionManager) (k : String) (st : SessionState) (x : String) :
    statusOf (m.set k st) x = if k = x then some st.status else statusOf m x := by
  simp only [statusOf, SessionManager.lookup, SessionManager.set, lookupEntries_set]
  split <;> rfl

theorem statusOf_del (m : SessionManager) (sid x : String) :
    statusOf (m.del sid) x = if x = sid then none else statusOf m x := by
  simp only [statusOf, SessionManager.lookup, SessionManager.del]
  by_cases h : x = sid
  · subst h; simp [lookupEntries_filter_self]
  · simp [h, lookupEntries_filter_other m.sessions sid x h]

theorem statusOf_set_same (m : SessionManager) (sid : String) (st st' : SessionState)
    (h : m.lookup sid = some st) (hs : st'.status = st.status) (x : String) :
    statusOf (m.set sid st') x = statusOf m x := by
  rw [statusOf_set]
  by_cases hx : sid = x
  · subst hx; simp [statusOf, h, hs]
  · simp [hx]

theorem frameLines_single (l : String) : frameLines [l] = [l] := rfl

theorem appendLinesBuffer_single (buf : List String) (l : String)
    (h : splitLines l = [l]) (hlen : buf.length + 1 ≤ MAX_OUTPUT_LINES) :
    appendLinesBuffer buf l = buf ++ [l] := by
  unfold appendLinesBuffer
  rw [h, frameLines_single]
  have hl2 : (buf ++ [l]).length = buf.length + 1 := by simp
  rw [if_neg (by omega)]

theorem appendLinesBuffer_length_le (buf : List String) (text : String) :
    (appendLinesBuffer buf text).length ≤ MAX_OUTPUT_LINES := by
  unfold appendLinesBuffer
  by_cases h : (buf ++ frameLines (splitLines text)).length > MAX_OUTPUT_LINES
  · rw [if_pos h]; simp [List.length_drop]; omega
  · rw [if_neg h]; omega

theorem foldl_append_single (ls : List String) (buf : List String)
    (hl : ∀ l ∈ ls, splitLines l = [l])
    (hn : buf.length + ls.length ≤ MAX_OUTPUT_LINES) :
    List.foldl appendLinesBuffer buf ls = buf ++ ls := by
  induction ls generalizing buf with
  | nil => simp
  | cons l rest ih =>
    have hlen : buf.length + 1 ≤ MAX_OUTPUT_LINES := by
      simp only [List.length_cons] at hn; omega
    rw [List.foldl_cons, appendLinesBuffer_single buf l (hl l (by simp)) hlen,
        ih (buf ++ [l]) (fun x hx => hl x (by simp [hx]))
          (by simp only [List.length_append, List.length_cons, List.length_nil] at hn ⊢; omega)]
    simp

/-- C3: for every sequence of at most 200 single-line appends starting from
the empty buffer, the buffer afterwards is exactly the appended lines in
order (the last min(len, 200) of them, the whole sequence here), and the
buffer length stays at most 200 after every append. -/
theorem ring_buffer_law (ls : List String) (hl : ∀ l ∈ ls, splitLines l = [l])
    (hn : ls.length ≤ 200) :
    List.foldl appendLinesBuffer [] ls = ls ∧
    (∀ k : Nat, (List.foldl appendLinesBuffer [] (ls.take k)).length ≤ 200) ∧
    (∀ buf text, (appendLinesBuffer buf text).length ≤ 200) := by
  refine ⟨?_, ?_, fun buf text => appendLinesBuffer_length_le buf text⟩
  · simpa using foldl_append_single ls [] hl (by simpa using hn)
  · intro k
    have h1 : List.foldl appendLinesBuffer [] (ls.take k) = ls.take k := by
      simpa using foldl_append_single (ls.take k) []
        (fun x hx => hl x (List.mem_of_mem_take hx))
        (by simp [List.length_take, MAX_OUTPUT_LINES]; omega)
    rw [h1]
    simp [List.length_take]
    omega

/-- Witness for C3 at a concrete two-line sequence. -/
theorem ring_buffer_law_witness :
    List.foldl appendLinesBuffer [] ["alpha", "beta"] = ["alpha", "beta"] ∧
    (List.foldl appendLinesBuffer [] (["alpha", "beta"].take 1)).length ≤ 200 :=
  ⟨(ring_buffer_law ["alpha", "beta"] (by decide) (by decide)).1,
   (ring_buffer_law ["alpha", "beta"] (by decide) (by decide)).2.1 1⟩

/-- C5: create on an id already present fails with DuplicateSessionError
before any side effect: the registry (hence the existing session) is
unchanged and the spawn facility is never invoked. -/
theorem create_duplicate_no_side_effects (m : SessionManager) (sid : String)
    (spawnPid : Option Nat) (spawnProc : ChildProcess) (now : Nat)
    (h : (m.lookup sid).isSome) :
    create m sid spawnPid spawnProc now = (m, .error (.duplicateSession sid), 0) := by
  simp [create, h]

/-- Witness for C5 on a registry already holding the id. -/
theorem create_duplicate_witness :
    (mA.lookup "s").isSome = true ∧
    create mA "s" (some 99) procLive 5 = (mA, .error (.duplicateSession "s"), 0) :=
  ⟨by decide, create_duplicate_no_side_effects mA "s" (some 99) procLive 5 (by decide)⟩

/-- C10: on an id not present in the registry, both detection operations
fail with NotFoundError (propagated from getOutput) rather than returning
an absent or false result. -/
theorem detect_unknown_notfound (m : SessionManager) (sid : String)
    (h : m.lookup sid = none) :
    detectPermissionPrompt m sid = .error (.notFound sid) ∧
    detectBypassWarning m sid = .error (.notFound sid) := by
  constructor <;> simp [detectPermissionPrompt, detectBypassWarning, getOutput, h, Except.map]

/-- Witness for C10 on the empty registry. -/
theorem detect_unknown_notfound_witness :
    mEmpty.lookup "x" = none ∧
    detectPermissionPrompt mEmpty "x" = .error (.notFound "x") ∧
    detectBypassWarning mEmpty "x" = .error (.notFound "x") :=
  ⟨by decide, (detect_unknown_notfound mEmpty "x" (by decide)).1,
   (detect_unknown_notfound mEmpty "x" (by decide)).2⟩

/-- C7: kill on an unknown id completes without error and without any side
effect; kill on a known id always removes the id from the registry (hence
from list()) and leaves the removed session with status offline, whichever
escalation stage ended the process. -/
theorem kill_spec (m : SessionManager) (sid : String) :
    (m.lookup sid = none → kill m sid = (m, none)) ∧
    (∀ st, m.lookup sid = some st →
      (kill m sid).1.lookup sid = none ∧
      (∀ e ∈ (kill m sid).1.sessions, e.1 ≠ sid) ∧
      ∃ st', (kill m sid).2 = some st' ∧ st'.status = .offline) := by
  constructor
  · intro h; simp [kill, h]
  · intro st h
    refine ⟨?_, ?_, ?_⟩
    · simp only [kill, h]
      simp [SessionManager.lookup, SessionManager.del, lookupEntries_filter_self]
    · intro e he
      simp only [kill, h, SessionManager.del] at he
      have := List.mem_filter.mp he
      simpa using this.2
    · simp only [kill, h]
      exact ⟨_, rfl, rfl⟩

/-- Witness for C7: an unknown id is a silent no-op, and killing the only
session empties the registry and reports it offline. -/
theorem kill_spec_witness :
    kill mA "zz" = (mA, none) ∧
    (kill mA "s").1.lookup "s" = none ∧
    (∃ st', (kill mA "s").2 = some st' ∧ st'.status = .offline) :=
  ⟨(kill_spec mA "zz").1 (by decide),
   ((kill_spec mA "s").2 sessionA (by decide)).1,
   ((kill_spec mA "s").2 sessionA (by decide)).2.2⟩

theorem kill_fst_sessions (m : SessionManager) (sid : String) :
    (kill m sid).1.sessions = m.sessions.filter (fun e => !(e.1 == sid)) := by
  cases h : m.lookup sid with
  | none =>
    simp only [kill, h]
    exact (lookupEntries_none_filter m.sessions sid h).symm
  | some st => simp [kill, h, SessionManager.del]

theorem foldl_kill_empty (ids : List String) (m : SessionManager)
    (h : ∀ e ∈ m.sessions, e.1 ∈ ids) :
    (ids.foldl (fun acc sid => (kill acc sid).1) m).sessions = [] := by
  induction ids generalizing m with
  | nil =>
    simp only [List.foldl_nil]
    exact List.eq_nil_iff_forall_not_mem.mpr
      (fun e he => absurd (h e he) (List.not_mem_nil e.1))
  | cons i rest ih =>
    simp only [List.foldl_cons]
    apply ih
    intro e he
    rw [kill_fst_sessions] at he
    obtain ⟨hmem, hne⟩ := List.mem_filter.mp he
    have h2 := h e hmem
    simp only [List.mem_cons] at h2
    rcases h2 with h2 | h2
    · exact absurd h2 (by simpa using hne)
    · exact h2

/-- C9: the first shutdown invokes single-session termination for exactly
the registered ids and empties the registry; a second shutdown terminates
zero sessions and leaves the empty registry unchanged. -/
theorem shutdown_idempotent (m : SessionManager) :
    (shutdown m).2 = m.sessions.map Prod.fst ∧
    (shutdown m).1.sessions = [] ∧
    shutdown (shutdown m).1 = ((shutdown m).1, []) := by
  have h2 : (shutdown m).1.sessions = [] :=
    foldl_kill_empty _ m (fun e he => List.mem_map_of_mem Prod.fst he)
  have h3 : (shutdown m).1 = mEmpty := by
    cases hm : (shutdown m).1
    rw [hm] at h2
    simp only at h2
    rw [h2]; rfl
  exact ⟨rfl, h2, by rw [h3]; rfl⟩

/-- C8: sendControl checks existence and liveness first (NotFoundError,
then OfflineError), then accepts exactly the three control symbols, writing
the mapped control byte to the input stream; every other symbol fails with
UnknownControlError. -/
theorem sendControl_symbols (m : SessionManager) (sid ch : String) (now : Nat) :
    controlByte "C-c" = some "\x03" ∧
    controlByte "C-d" = some "\x04" ∧
    controlByte "C-z" = some "\x1a" ∧
    (m.lookup sid = none → sendControl m sid ch now = (m, .error (.notFound sid))) ∧
    (∀ st, m.lookup sid = some st →
      (st.status = .offline ∨ ¬ st.process.stdinPresent) →
      sendControl m sid ch now = (m, .error (.offline sid))) ∧
    (∀ st, m.lookup sid = some st → st.status ≠ .offline → st.process.stdinPresent →
      ((ch ≠ "C-c" ∧ ch ≠ "C-d" ∧ ch ≠ "C-z") →
        sendControl m sid ch now = (m, .error (.unknownControl ch))) ∧
      (∀ b, controlByte ch = some b →
        sendControl m sid ch now =
          (m.set sid { st with
             process := { st.process with stdinWrites := st.process.stdinWrites ++ [b] }
             lastActivity := now }, .ok ()))) := by
  refine ⟨rfl, rfl, rfl, ?_, ?_, ?_⟩
  · intro h; simp [sendControl, h]
  · intro st h hoff
    simp only [sendControl, h]
    rw [if_pos hoff]
  · intro st h hne hsp
    have hcond : ¬ (st.status = .offline ∨ ¬ st.process.stdinPresent) := by
      simp [hne, hsp]
    constructor
    · intro ⟨h1, h2, h3⟩
      simp only [sendControl, h]
      rw [if_neg hcond]
      simp [controlByte, h1, h2, h3]
    · intro b hb
      simp only [sendControl, h]
      rw [if_neg hcond, hb]

/-- Witness for C8: a live session rejects an unknown symbol, accepts the
end-of-input symbol with the corresponding byte written, an unknown id
fails with NotFoundError, and an offline session with OfflineError. -/
theorem sendControl_symbols_witness :
    sendControl mA "s" "C-q" 0 = (mA, .error (.unknownControl "C-q")) ∧
    sendControl mA "s" "C-d" 1 =
      (mA.set "s" { sessionA with
         process := { sessionA.process with
           stdinWrites := sessionA.process.stdinWrites ++ ["\x04"] }
         lastActivity := 1 }, .ok ()) ∧
    sendControl mEmpty "s" "C-c" 0 = (mEmpty, .error (.notFound "s")) ∧
    sendControl mOffline "s" "C-c" 0 = (mOffline, .error (.offline "s")) :=
  ⟨((sendControl_symbols mA "s" "C-q" 0).2.2.2.2.2 sessionA (by decide)
      (by decide) (by decide)).1 (by decide),
   ((sendControl_symbols mA "s" "C-d" 1).2.2.2.2.2 sessionA (by decide)
      (by decide) (by decide)).2 "\x04" rfl,
   (sendControl_symbols mEmpty "s" "C-c" 0).2.2.2.1 (by decide),
   (sendControl_symbols mOffline "s" "C-c" 0).2.2.2.2.1 sessionOffline (by decide)
      (by decide)⟩

/-- C2 (code bug): after the session process is terminated by an externally
delivered signal (exit event with a null code and a signal name, the handle
kill flag never set), the status is offline and both send operations fail
with OfflineError as the claim states, but isAlive still returns true: the
liveness check consults only the kill flag and the exit code, and a
signal-terminated process has a null exit code. -/
theorem isAlive_signal_exit_divergence :
    statusOf mSignalExit "s" = some .offline ∧
    sendText mSignalExit "s" "hello" 1 = (mSignalExit, .error (.offline "s")) ∧
    sendControl mSignalExit "s" "C-c" 1 = (mSignalExit, .error (.offline "s")) ∧
    (isAlive mSignalExit "s").2 = true := by
  refine ⟨by decide, by decide, by decide, by decide⟩

/-- C1 (counterexample): on the scenario transcript the detector reports
the Unknown sentinel as the tool, because the bash-invocation line matches
neither tool pattern of the source (no bullet marker, and no whitespace
between the keyword and what follows). -/
theorem prompt_scenario_tool_cx :
    (detectPermissionPrompt mScenario "s").map (Option.map (fun p => p.tool)) =
      .ok (some "Unknown") := by decide

/-- C1 (amended): the scenario buffer yields a parsed prompt whose options
are exactly the pairs one-Yes and two-No in order, and whose tool field is
the Unknown sentinel. -/
theorem prompt_scenario_amended :
    detectPermissionPrompt mScenario "s" = .ok (some pScenario) ∧
    pScenario.options = [{ number := "1", label := "Yes" }, { number := "2", label := "No" }] ∧
    pScenario.tool = "Unknown" := by
  refine ⟨by decide, rfl, rfl⟩

/-- C6: the detector reports no prompt unless both gates pass. The scenario
lines with the footer line and the cursor-marker line both removed yield no
prompt; a proceed question followed by a single numbered option yields no
prompt; and in general a reported prompt implies the footer-or-selector
gate held at the matched question line and at least two options were
collected. -/
theorem prompt_detector_gates :
    parsePermissionPrompt scenarioNoFooterNoCursor = none ∧
    parsePermissionPrompt scenarioSingleOption = none ∧
    (∀ out p, parsePermissionPrompt out = some p →
      (∃ idx, findProceedIdx (splitLines out) = some idx ∧
        footerOrSelector (splitLines out) idx = true ∧
        p.options = collectOptions (splitLines out) idx) ∧
      2 ≤ p.options.length) := by
  refine ⟨by decide, by decide, ?_⟩
  intro out p h
  cases hf : findProceedIdx (splitLines out) with
  | none => simp [parsePermissionPrompt, hf] at h
  | some idx =>
    simp only [parsePermissionPrompt, hf] at h
    by_cases hg : footerOrSelector (splitLines out) idx = true
    · rw [if_pos hg] at h
      by_cases hlen : (collectOptions (splitLines out) idx).length < 2
      · rw [if_pos hlen] at h; exact absurd h (by simp)
      · rw [if_neg hlen] at h
        have hp : p = { tool := findTool (splitLines out) idx
                        context := buildContext (splitLines out) idx
                          (collectOptions (splitLines out) idx).length
                        options := collectOptions (splitLines out) idx } :=
          (Option.some.injEq _ _ ▸ h).symm
        subst hp
        exact ⟨⟨idx, rfl, hg, rfl⟩, by simpa using Nat.not_lt.mp hlen⟩
    · rw [if_neg hg] at h; exact absurd h (by simp)

/-- Witness for C6: the positive scenario passes both gates and carries two
options. -/
theorem prompt_detector_gates_witness :
    parsePermissionPrompt scenarioOut = some pScenario ∧ 2 ≤ pScenario.options.length :=
  ⟨by decide, (prompt_detector_gates.2.2 scenarioOut pScenario (by decide)).2⟩

/-! Status-preservation lemmas for the terminal-offline claim. -/

theorem statusPreserved_refl (m : SessionManager) (x : String) : statusPreserved m m x :=
  Or.inl rfl

theorem statusPreserved_trans (m m' m'' : SessionManager) (x : String)
    (h1 : statusPreserved m m' x) (h2 : statusPreserved m' m'' x) :
    statusPreserved m m'' x := by
  rcases h2 with h2 | h2 | h2
  · rcases h1 with h1 | h1 | h1
    · exact Or.inl (h2.trans h1)
    · exact Or.inr (Or.inl (h2.trans h1))
    · exact Or.inr (Or.inr (h2.trans h1))
  · exact Or.inr (Or.inl h2)
  · exact Or.inr (Or.inr h2)

theorem statusPreserved_set_same (m : SessionManager) (sid : String)
    (st st' : SessionState) (h : m.lookup sid = some st) (hs : st'.status = st.status)
    (x : String) : statusPreserved m (m.set sid st') x :=
  Or.inl (statusOf_set_same m sid st st' h hs x)

theorem statusPreserved_set_offline (m : SessionManager) (sid : String)
    (st' : SessionState) (hs : st'.status = .offline) (x : String) :
    statusPreserved m (m.set sid st') x := by
  unfold statusPreserved
  rw [statusOf_set]
  by_cases h : sid = x
  · simp [h, hs]
  · simp [h]

theorem sendText_statusPreserved (m : SessionManager) (sid t : String) (now : Nat)
    (x : String) : statusPreserved m (sendText m sid t now).1 x := by
  cases h : m.lookup sid with
  | none => simp only [sendText, h]; exact statusPreserved_refl m x
  | some st =>
    simp only [sendText, h]
    by_cases hoff : st.status = .offline ∨ ¬ st.process.stdinPresent
    · rw [if_pos hoff]; exact statusPreserved_refl m x
    · rw [if_neg hoff]
      refine statusPreserved_set_same m sid st _ h ?_ x
      rfl

theorem sendControl_statusPreserved (m : SessionManager) (sid ch : String) (now : Nat)
    (x : String) : statusPreserved m (sendControl m sid ch now).1 x := by
  cases h : m.lookup sid with
  | none => simp only [sendControl, h]; exact statusPreserved_refl m x
  | some st =>
    simp only [sendControl, h]
    by_cases hoff : st.status = .offline ∨ ¬ st.process.stdinPresent
    · rw [if_pos hoff]; exact statusPreserved_refl m x
    · rw [if_neg hoff]
      cases hb : controlByte ch with
      | none => exact statusPreserved_refl m x
      | some b =>
        refine statusPreserved_set_same m sid st _ h ?_ x
        rfl

theorem kill_statusPreserved (m : SessionManager) (sid x : String) :
    statusPreserved m (kill m sid).1 x := by
  cases h : m.lookup sid with
  | none => simp only [kill, h]; exact statusPreserved_refl m x
  | some st =>
    simp only [kill, h]
    unfold statusPreserved
    rw [statusOf_del]
    by_cases hx : x = sid
    · simp [hx]
    · simp [hx]

theorem isAlive_statusPreserved (m : SessionManager) (sid x : String) :
    statusPreserved m (isAlive m sid).1 x := by
  cases h : m.lookup sid with
  | none => simp only [isAlive, h]; exact statusPreserved_refl m x
  | some st =>
    simp only [isAlive, h]
    by_cases hc : st.process.killed ∨ st.process.exitCode ≠ none
    · rw [if_pos hc]
      exact statusPreserved_set_offline m sid _ rfl x
    · rw [if_neg hc]; exact statusPreserved_refl m x

theorem processExit_statusPreserved (m : SessionManager) (sid : String)
    (code : Option Int) (signal : Option String) (x : String) :
    statusPreserved m (processExit m sid code signal) x := by
  cases h : m.lookup sid with
  | none => simp only [processExit, h]; exact statusPreserved_refl m x
  | some st =>
    simp only [processExit, h]
    exact statusPreserved_set_offline m sid _ rfl x

theorem processError_statusPreserved (m : SessionManager) (sid x : String) :
    statusPreserved m (processError m sid) x := by
  cases h : m.lookup sid with
  | none => simp only [processError, h]; exact statusPreserved_refl m x
  | some st =>
    simp only [processError, h]
    exact statusPreserved_set_offline m sid _ rfl x

theorem receiveData_statusPreserved (m : SessionManager) (sid chunk : String)
    (now : Nat) (x : String) : statusPreserved m (receiveData m sid chunk now) x := by
  cases h : m.lookup sid with
  | none => simp only [receiveData, h]; exact statusPreserved_refl m x
  | some st =>
    simp only [receiveData, h]
    refine statusPreserved_set_same m sid st _ h ?_ x
    rfl

theorem shutdown_statusPreserved (m : SessionManager) (x : String) :
    statusPreserved m (shutdown m).1 x := by
  show statusPreserved m ((m.sessions.map Prod.fst).foldl
    (fun acc sid => (kill acc sid).1) m) x
  generalize m.sessions.map Prod.fst = ids
  induction ids generalizing m with
  | nil => exact statusPreserved_refl m x
  | cons i rest ih =>
    rw [List.foldl_cons]
    exact statusPreserved_trans m (kill m i).1 _ x
      (kill_statusPreserved m i x) (ih (kill m i).1)

theorem applyOp_statusPreserved (m : SessionManager) (op : CoreOp) (x : String) :
    statusPreserved m (applyOp m op) x := by
  cases op with
  | sendTextOp sid t now => exact sendText_statusPreserved m sid t now x
  | sendControlOp sid ch now => exact sendControl_statusPreserved m sid ch now x
  | getOutputOp sid n => exact statusPreserved_refl m x
  | getAllOutputOp sid => exact statusPreserved_refl m x
  | detectPromptOp sid => exact statusPreserved_refl m x
  | detectBypassOp sid => exact statusPreserved_refl m x
  | killOp sid => exact kill_statusPreserved m sid x
  | listOp => exact statusPreserved_refl m x
  | getOp sid => exact statusPreserved_refl m x
  | isAliveOp sid => exact isAlive_statusPreserved m sid x
  | exitEvent sid code signal => exact processExit_statusPreserved m sid code signal x
  | errorEvent sid => exact processError_statusPreserved m sid x
  | dataEvent sid chunk now => exact receiveData_statusPreserved m sid chunk now x
  | shutdownOp => exact shutdown_statusPreserved m x

theorem applyOps_statusPreserved (m : SessionManager) (ops : List CoreOp) (x : String) :
    statusPreserved m (applyOps m ops) x := by
  unfold applyOps
  induction ops generalizing m with
  | nil => exact statusPreserved_refl m x
  | cons op rest ih =>
    rw [List.foldl_cons]
    exact statusPreserved_trans m (applyOp m op) _ x
      (applyOp_statusPreserved m op x) (ih (applyOp m op))

/-- C4 (amended): once a session is offline, no sequence of core operations
other than re-creating the session or a caller updateStatus can make its
status idle or working again, and while offline sendText and sendControl
reject every write with OfflineError. -/
theorem offline_terminal_amended (m : SessionManager) (sid : String)
    (h : statusOf m sid = some .offline) (ops : List CoreOp) :
    statusOf (applyOps m ops) sid ≠ some .idle ∧
    statusOf (applyOps m ops) sid ≠ some .working ∧
    (∀ t now, sendText m sid t now = (m, .error (.offline sid))) ∧
    (∀ ch now, sendControl m sid ch now = (m, .error (.offline sid))) := by
  obtain ⟨st, hst, hoff⟩ : ∃ st, m.lookup sid = some st ∧ st.status = .offline := by
    cases hl : m.lookup sid with
    | none => rw [statusOf, hl] at h; exact absurd h (by simp)
    | some st =>
      refine ⟨st, rfl, ?_⟩
      rw [statusOf, hl] at h
      simpa using h
  have hp := applyOps_statusPreserved m ops sid
  refine ⟨?_, ?_, ?_, ?_⟩
  · rcases hp with hp | hp | hp <;> rw [hp] <;> simp [h]
  · rcases hp with hp | hp | hp <;> rw [hp] <;> simp [h]
  · intro t now
    simp only [sendText, hst]
    rw [if_pos (Or.inl hoff)]
  · intro ch now
    simp only [sendControl, hst]
    rw [if_pos (Or.inl hoff)]

/-- C4 (counterexample): updateStatus is a core operation that transitions
an offline session straight back to idle, so offline is not terminal as
claimed. -/
theorem offline_not_terminal_cx :
    statusOf mOffline "s" = some .offline ∧
    statusOf (updateStatus mOffline "s" .idle 3) "s" = some .idle := by
  refine ⟨by decide, by decide⟩

/-- Witness for C4 on a concrete offline session and operation sequence. -/
theorem offline_terminal_witness :
    statusOf mOffline "s" = some .offline ∧
    statusOf (applyOps mOffline
      [.isAliveOp "s", .dataEvent "s" "x" 1, .errorEvent "s"]) "s" ≠ some .idle ∧
    sendText mOffline "s" "hi" 7 = (mOffline, .error (.offline "s")) :=
  ⟨by decide,
   (offline_terminal_amended mOffline "s" (by decide)
      [.isAliveOp "s", .dataEvent "s" "x" 1, .errorEvent "s"]).1,
   (offline_terminal_amended mOffline "s" (by decide) []).2.2.1 "hi" 7⟩

end Vibecraft
